import Mathlib

/-!
Shallow embedding of the product-demand forecasting web application
(`app.py`): the startup CSV load, the per-product yearly series
preparation, the forecast construction, the chart placeholder logic with
base64 encoding, and the POST request handler with its ordered checks.

External library behaviour is embedded as follows:
* `pd.to_numeric(..., errors='coerce')` on the quantity column and
  `pd.to_datetime(..., errors='coerce')` on the date column are modelled by
  `Option`-valued fields of the raw records (`none` = NaN / NaT);
* `Series.resample('Y').sum()` produces one bin per calendar year from the
  first to the last successfully parsed year of the input, an empty bin
  summing to 0 (pandas sums with `min_count=0`), rows with unparseable
  dates being excluded from every bin;
* `fillna(method='ffill')` is the forward fill over the possibly-missing
  values of the resampled series;
* the ARIMA fit and forecast of statsmodels are opaque oracles passed to
  the handler as function parameters (`fit`, `pred`), a `none` result
  standing for the caught exception of `train_arima` / `predict_demand`;
* matplotlib rasterisation is an opaque byte producer applied to a
  symbolic plot description (`HistPlotSpec` / `ForecastPlotSpec`) that
  records which of the chart/placeholder branches the plotting code took;
  the base64 step is embedded concretely.
-/

namespace App

/-- A raw CSV row after the two library coercions: `date` is the calendar
year of the parsed `Date` (`none` for NaT), `order_demand_num` is the
coerced numeric `Order_Demand` (`none` for NaN). -/
structure RawRecord where
  product_code : String
  date : Option Nat
  order_demand_num : Option Int
deriving DecidableEq

/-- A retained in-memory demand record after the startup load. -/
structure DemandRecord where
  product_code : String
  date : Option Nat
  quantity : Int
deriving DecidableEq

/-- The startup load (module level of `app.py`): coerce `Order_Demand` to
numeric, drop the rows where the coercion failed, keep the integer value. -/
def load (raws : List RawRecord) : List DemandRecord :=
  raws.filterMap fun r =>
    r.order_demand_num.map fun q => DemandRecord.mk r.product_code r.date q

/-- `data[data['Product_Code'] == product_code]`. -/
def matching (ds : List DemandRecord) (code : String) : List DemandRecord :=
  ds.filter fun r => r.product_code == code

/-- The successfully parsed years of a record list (NaT rows excluded). -/
def parsedYears (rs : List DemandRecord) : List Nat :=
  rs.filterMap fun r => r.date

/-- First year bin of the yearly resampling (0 when no date parses). -/
def minObsYear (rs : List DemandRecord) : Nat :=
  match parsedYears rs with
  | [] => 0
  | y :: tl => tl.foldl min y

/-- Last year bin of the yearly resampling (0 when no date parses). -/
def maxObsYear (rs : List DemandRecord) : Nat :=
  match parsedYears rs with
  | [] => 0
  | y :: tl => tl.foldl max y

/-- Total quantity of the records falling in year `y`. -/
def yearTotal (rs : List DemandRecord) (y : Nat) : Int :=
  (rs.filter fun r => r.date == some y).foldl (fun acc r => acc + r.quantity) 0

/-- `Series.resample('Y').sum()`: one bin per year from the first to the
last parsed year, an empty bin summing to 0. -/
def resampleYearlySum (rs : List DemandRecord) : List (Nat × Int) :=
  if (parsedYears rs).isEmpty then []
  else
    (List.range (maxObsYear rs + 1 - minObsYear rs)).map fun i =>
      (minObsYear rs + i, yearTotal rs (minObsYear rs + i))

/-- View of a series where every value is present (the resampled sums are
never NaN). -/
def withNaN (s : List (Nat × Int)) : List (Nat × Option Int) :=
  s.map fun p => (p.1, some p.2)

/-- `fillna(method='ffill')`: replace a missing value by the last value
seen so far. -/
def ffillGo (last : Option Int) : List (Nat × Option Int) → List (Nat × Option Int)
  | [] => []
  | (y, v) :: rest =>
    match v with
    | some x => (y, some x) :: ffillGo (some x) rest
    | none => (y, last) :: ffillGo last rest

/-- `prepare_data`: select the product, resample yearly, forward fill,
then clip to calendar years 2015 through 2024. An unknown product code
gives the empty series; a failure while parsing or aggregating (all dates
NaT) also degrades to the empty series. -/
def prepare_data (ds : List DemandRecord) (code : String) : List (Nat × Int) :=
  let m := matching ds code
  if m.isEmpty then []
  else
    let s := resampleYearlySum m
    let filled := (ffillGo none (withNaN s)).filterMap fun p =>
      p.2.map fun v => (p.1, v)
    filled.filter fun p => 2015 ≤ p.1 && p.1 ≤ 2024

/-- `get_yearly_demand`: the same selection, yearly resampling and year
window, but `None` for an unknown product and no forward fill. -/
def get_yearly_demand (ds : List DemandRecord) (code : String) :
    Option (List (Nat × Int)) :=
  let m := matching ds code
  if m.isEmpty then none
  else some ((resampleYearlySum m).filter fun p => 2015 ≤ p.1 && p.1 ≤ 2024)

/-- The standard base64 alphabet in order. -/
def b64chars : List Char :=
  ['A', 'B', 'C', 'D', 'E', 'F', 'G', 'H', 'I', 'J', 'K', 'L', 'M',
   'N', 'O', 'P', 'Q', 'R', 'S', 'T', 'U', 'V', 'W', 'X', 'Y', 'Z',
   'a', 'b', 'c', 'd', 'e', 'f', 'g', 'h', 'i', 'j', 'k', 'l', 'm',
   'n', 'o', 'p', 'q', 'r', 's', 't', 'u', 'v', 'w', 'x', 'y', 'z',
   '0', '1', '2', '3', '4', '5', '6', '7', '8', '9', '+', '/']

/-- Alphabet character of a sextet. -/
def b64c (n : Nat) : Char := b64chars.getD (n % 64) 'A'

/-- Base64 of a byte list, three bytes to four characters, padded with
`=`. -/
def base64Chunks : List Nat → List Char
  | [] => []
  | [a] => [b64c (a / 4), b64c (a % 4 * 16), '=', '=']
  | [a, b] => [b64c (a / 4), b64c (a % 4 * 16 + b / 16), b64c (b % 16 * 4), '=']
  | a :: b :: c :: rest =>
    b64c (a / 4) :: b64c (a % 4 * 16 + b / 16) :: b64c (b % 16 * 4 + c / 64) ::
      b64c (c % 64) :: base64Chunks rest

/-- `base64.b64encode(...).decode('utf-8')`. -/
def base64Encode (bs : List Nat) : String := String.mk (base64Chunks bs)

/-- A string is well-formed base64 output: length a multiple of four and
every character from the alphabet or the padding character. -/
def validBase64 (s : String) : Prop :=
  s.data.length % 4 = 0 ∧ ∀ c ∈ s.data, c ∈ b64chars ∨ c = '='

/-- Placeholder text of `create_historical_plot` for an empty series. -/
def histMsg : String :=
  "No historical data available for the selected product between 2015-2024."

/-- Placeholder text of `create_forecast_plot` for an empty mapping. -/
def forecastMsg : String := "No forecast data available between 2025-2029."

/-- Symbolic content of the historical figure: either the plotted line of
points or the placeholder text. -/
inductive HistPlotSpec where
  | chart (points : List (Nat × Int)) (code : String)
  | noData (msg : String) (code : String)
deriving DecidableEq

/-- Symbolic content of the forecast figure. -/
inductive ForecastPlotSpec (π : Type) where
  | chart (points : List (Nat × π)) (code : String)
  | noData (msg : String) (code : String)

/-- Branch taken by `create_historical_plot`: plot the series when it is
non-empty, otherwise draw the placeholder text. -/
def histPlotSpec (hist : List (Nat × Int)) (code : String) : HistPlotSpec :=
  if hist.isEmpty then HistPlotSpec.noData histMsg code
  else HistPlotSpec.chart hist code

/-- Branch taken by `create_forecast_plot`: re-filter the mapping to the
years 2025 through 2029, plot it when non-empty, otherwise draw the
placeholder text. -/
def forecastPlotSpec {π : Type} (fc : List (Nat × π)) (code : String) :
    ForecastPlotSpec π :=
  let fy := fc.filter fun p => 2025 ≤ p.1 && p.1 ≤ 2029
  if fy.isEmpty then ForecastPlotSpec.noData forecastMsg code
  else ForecastPlotSpec.chart fy code

/-- `create_historical_plot`: rasterise the figure content (opaque
`render`) and base64-encode the PNG bytes. -/
def create_historical_plot (render : HistPlotSpec → List Nat)
    (hist : List (Nat × Int)) (code : String) : String :=
  base64Encode (render (histPlotSpec hist code))

/-- `create_forecast_plot`: rasterise the figure content and
base64-encode the PNG bytes. -/
def create_forecast_plot {π : Type} (render : ForecastPlotSpec π → List Nat)
    (fc : List (Nat × π)) (code : String) : String :=
  base64Encode (render (forecastPlotSpec fc code))

/-- The arguments of the `render_template_string` call that matter to the
user: the error message, the forecast mapping and the two inline images.
`π` is the opaque type of predicted values (floats in the source). -/
structure Render (π : Type) where
  error : Option String
  forecast : Option (List (Nat × π))
  historical_plot_url : Option String
  forecast_plot_url : Option String
deriving DecidableEq

/-- Rendering of the `no_data` terminal state. -/
def noDataRender {π : Type} : Render π :=
  ⟨some "No data found for this product or no data between 2015-2024.",
   none, none, none⟩

/-- Rendering of the `training_failed` terminal state. -/
def trainFailRender {π : Type} : Render π :=
  ⟨some "Failed to train ARIMA model.", none, none, none⟩

/-- Rendering of the `forecast_failed` terminal state. -/
def forecastFailRender {π : Type} : Render π :=
  ⟨some "Failed to generate forecast.", none, none, none⟩

/-- `series.index[-1].year`. -/
def lastYear (s : List (Nat × Int)) : Nat := ((s.getLast?).map Prod.fst).getD 0

/-- The forecast dictionary of the handler: key
`series.index[-1].year + i + 1` for the i-th predicted value. -/
def buildForecast {π : Type} (l : Nat) (vals : List π) : List (Nat × π) :=
  vals.enum.map fun p => (l + p.1 + 1, p.2)

/-- The guard of the first check of the handler:
`series.empty or historical_data is None or historical_data.empty`. -/
def noDataCheck (ds : List DemandRecord) (code : String) : Bool :=
  (prepare_data ds code).isEmpty || (get_yearly_demand ds code).isNone ||
    ((get_yearly_demand ds code).getD []).isEmpty

/-- The POST branch of the `index` handler. `fit` and `pred` are the
opaque ARIMA oracles (`train_arima` and `predict_demand`, `none` for a
caught exception); `rH` and `rF` are the opaque rasterisers. -/
def index_post {μ π : Type} (fit : List (Nat × Int) → Option μ)
    (pred : μ → Nat → Option (List π)) (rH : HistPlotSpec → List Nat)
    (rF : ForecastPlotSpec π → List Nat) (ds : List DemandRecord)
    (code : String) : Render π :=
  let series := prepare_data ds code
  let hist := get_yearly_demand ds code
  if series.isEmpty || hist.isNone || (hist.getD []).isEmpty then noDataRender
  else
    match fit series with
    | none => trainFailRender
    | some m =>
      match pred m 5 with
      | none => forecastFailRender
      | some vals =>
        let fc := (buildForecast (lastYear series) vals).filter fun p =>
          2025 ≤ p.1 && p.1 ≤ 2029
        ⟨none, some fc, some (create_historical_plot rH (hist.getD []) code),
         some (create_forecast_plot rF fc code)⟩

/-- The handler viewed as a transformer of the process-wide dataset
state: the source reads the module-level `data` (always through
`.copy()`) and never rebinds it, so the state component is returned
unchanged. -/
def index_post_st {μ π : Type} (fit : List (Nat × Int) → Option μ)
    (pred : μ → Nat → Option (List π)) (rH : HistPlotSpec → List Nat)
    (rF : ForecastPlotSpec π → List Nat) (st : List DemandRecord)
    (code : String) : Render π × List DemandRecord :=
  (index_post fit pred rH rF st code, st)

/-! ## Helper lemmas -/

theorem ffillGo_withNaN (a : Option Int) (s : List (Nat × Int)) :
    ffillGo a (withNaN s) = withNaN s := by
  induction s generalizing a with
  | nil => rfl
  | cons p rest ih =>
    obtain ⟨y, q⟩ := p
    have ih2 := ih (some q)
    simp only [withNaN, List.map_cons] at ih2 ⊢
    simp [ffillGo, ih2]

theorem filterMap_withNaN (s : List (Nat × Int)) :
    ((withNaN s).filterMap fun p => p.2.map fun v => (p.1, v)) = s := by
  unfold withNaN
  rw [List.filterMap_map]
  induction s with
  | nil => rfl
  | cons p rest ih => simp [List.filterMap_cons, Function.comp, ih]

theorem matching_nil_of_isEmpty {ds : List DemandRecord} {code : String}
    (h : (matching ds code).isEmpty = true) : matching ds code = [] := by
  simpa [List.isEmpty_iff] using h

/-- The forward fill and the unwrapping collapse: `prepare_data` is the
window filter of the yearly resampling. -/
theorem prepare_data_eq_filter (ds : List DemandRecord) (code : String) :
    prepare_data ds code =
      (resampleYearlySum (matching ds code)).filter
        fun p => 2015 ≤ p.1 && p.1 ≤ 2024 := by
  simp only [prepare_data]
  by_cases hm : matching ds code = []
  · simp [hm, resampleYearlySum, parsedYears]
  · rw [if_neg (by simpa [List.isEmpty_iff] using hm), ffillGo_withNaN,
      filterMap_withNaN]

theorem get_yearly_demand_eq (ds : List DemandRecord) (code : String)
    (h : matching ds code ≠ []) :
    get_yearly_demand ds code =
      some ((resampleYearlySum (matching ds code)).filter
        fun p => 2015 ≤ p.1 && p.1 ≤ 2024) := by
  simp only [get_yearly_demand]
  rw [if_neg (by simpa [List.isEmpty_iff] using h)]

/-- When the prepared series is non-empty, `get_yearly_demand` succeeds
with exactly the prepared series. -/
theorem get_eq_prepare_of_ne {ds : List DemandRecord} {code : String}
    (h : prepare_data ds code ≠ []) :
    get_yearly_demand ds code = some (prepare_data ds code) := by
  have hm : matching ds code ≠ [] := by
    intro hm
    apply h
    unfold prepare_data
    simp [hm]
  rw [get_yearly_demand_eq ds code hm, prepare_data_eq_filter]

/-- Membership in the yearly resampling: exactly the years of the span
from the first to the last parsed year, each paired with its total. -/
theorem mem_resampleYearlySum {rs : List DemandRecord} {y : Nat} {v : Int} :
    (y, v) ∈ resampleYearlySum rs ↔
      parsedYears rs ≠ [] ∧ minObsYear rs ≤ y ∧ y ≤ maxObsYear rs ∧
        v = yearTotal rs y := by
  unfold resampleYearlySum
  cases h : (parsedYears rs).isEmpty with
  | true =>
    have : parsedYears rs = [] := by simpa [List.isEmpty_iff] using h
    simp [this]
  | false =>
    have hne : parsedYears rs ≠ [] := by
      simpa [List.isEmpty_iff] using (by simp [h] : ¬(parsedYears rs).isEmpty = true)
    rw [if_neg (by simp : ¬(false = true))]
    simp only [List.mem_map, List.mem_range]
    constructor
    · rintro ⟨i, hi, heq⟩
      have h1 : minObsYear rs + i = y := congrArg Prod.fst heq
      have h2 : yearTotal rs (minObsYear rs + i) = v := congrArg Prod.snd heq
      subst h1
      exact ⟨hne, by omega, by omega, h2.symm⟩
    · rintro ⟨-, hlo, hhi, hv⟩
      refine ⟨y - minObsYear rs, by omega, ?_⟩
      have hy : minObsYear rs + (y - minObsYear rs) = y := by omega
      rw [hy, hv]

theorem b64chars_getD_mem : ∀ n, n < 64 → b64chars.getD n 'A' ∈ b64chars := by
  decide

theorem b64c_mem (n : Nat) : b64c n ∈ b64chars :=
  b64chars_getD_mem (n % 64) (Nat.mod_lt n (by decide))

theorem base64Chunks_valid (bs : List Nat) :
    (base64Chunks bs).length % 4 = 0 ∧
      ∀ c ∈ base64Chunks bs, c ∈ b64chars ∨ c = '=' := by
  induction bs using base64Chunks.induct
  next => simp [base64Chunks]
  next a =>
    refine ⟨by simp [base64Chunks], ?_⟩
    intro ch hc
    simp only [base64Chunks, List.mem_cons, List.not_mem_nil, or_false] at hc
    rcases hc with rfl | rfl | rfl | rfl
    · exact Or.inl (b64c_mem _)
    · exact Or.inl (b64c_mem _)
    · exact Or.inr rfl
    · exact Or.inr rfl
  next a b =>
    refine ⟨by simp [base64Chunks], ?_⟩
    intro ch hc
    simp only [base64Chunks, List.mem_cons, List.not_mem_nil, or_false] at hc
    rcases hc with rfl | rfl | rfl | rfl
    · exact Or.inl (b64c_mem _)
    · exact Or.inl (b64c_mem _)
    · exact Or.inl (b64c_mem _)
    · exact Or.inr rfl
  next a b c rest ih =>
    obtain ⟨ih1, ih2⟩ := ih
    constructor
    · simp only [base64Chunks, List.length_cons]
      omega
    · intro ch hc
      simp only [base64Chunks, List.mem_cons] at hc
      rcases hc with rfl | rfl | rfl | rfl | hc
      · exact Or.inl (b64c_mem _)
      · exact Or.inl (b64c_mem _)
      · exact Or.inl (b64c_mem _)
      · exact Or.inl (b64c_mem _)
      · exact ih2 ch hc

theorem validBase64_base64Encode (bs : List Nat) :
    validBase64 (base64Encode bs) :=
  base64Chunks_valid bs

/-! ## Concrete fixture datasets for the witnesses -/

/-- One record of another product. -/
def dsB : List DemandRecord := [DemandRecord.mk "B" (some 2015) 1]

/-- One record of product A in 2015. -/
def ds1 : List DemandRecord := [DemandRecord.mk "A" (some 2015) 10]

/-- A record whose date does not parse. -/
def dsNaT : List DemandRecord := [DemandRecord.mk "A" none 5]

/-- Product A with records in 2015 and 2017 but none in 2016. -/
def dsGap : List DemandRecord :=
  [DemandRecord.mk "A" (some 2015) 10, DemandRecord.mk "A" (some 2017) 20]

/-- Product A with the two yearly totals (2015, 100) and (2016, 120). -/
def dsTwo : List DemandRecord :=
  [DemandRecord.mk "A" (some 2015) 100, DemandRecord.mk "A" (some 2016) 120]

/-- Product A with one record in each year 2015 through 2021. -/
def ds7 : List DemandRecord :=
  [DemandRecord.mk "A" (some 2015) 1, DemandRecord.mk "A" (some 2016) 2,
   DemandRecord.mk "A" (some 2017) 3, DemandRecord.mk "A" (some 2018) 4,
   DemandRecord.mk "A" (some 2019) 5, DemandRecord.mk "A" (some 2020) 6,
   DemandRecord.mk "A" (some 2021) 7]

/-- Trivial fit oracle used in the witnesses: always fails. -/
def fit0 : List (Nat × Int) → Option Unit := fun _ => none

/-- Trivial forecast oracle used in the witnesses: always fails. -/
def pred0 : Unit → Nat → Option (List Int) := fun _ _ => none

/-- Trivial rasteriser used in the witnesses. -/
def rH0 : HistPlotSpec → List Nat := fun _ => []

/-- Trivial rasteriser used in the witnesses. -/
def rF0 : ForecastPlotSpec Int → List Nat := fun _ => []

/-! ## The claims -/

/-- C1: a product code matching no record in the dataset drives the POST
handler to the `no_data` terminal state: `prepare_data` returns the empty
series, `get_yearly_demand` returns `None`, and the handler renders the
single no-data message with no forecast and no charts. -/
theorem demand_c1 {μ π : Type} (fit : List (Nat × Int) → Option μ)
    (pred : μ → Nat → Option (List π)) (rH : HistPlotSpec → List Nat)
    (rF : ForecastPlotSpec π → List Nat) (ds : List DemandRecord)
    (code : String) (h : ∀ r ∈ ds, r.product_code ≠ code) :
    prepare_data ds code = [] ∧ get_yearly_demand ds code = none ∧
      index_post fit pred rH rF ds code = noDataRender ∧
      (noDataRender : Render π).error =
        some "No data found for this product or no data between 2015-2024." ∧
      (noDataRender : Render π).forecast = none ∧
      (noDataRender : Render π).historical_plot_url = none ∧
      (noDataRender : Render π).forecast_plot_url = none := by
  have hm : matching ds code = [] := by
    rw [matching, List.filter_eq_nil_iff]
    intro r hr
    simpa using h r hr
  have hp : prepare_data ds code = [] := by simp [prepare_data, hm]
  have hg : get_yearly_demand ds code = none := by simp [get_yearly_demand, hm]
  refine ⟨hp, hg, ?_, rfl, rfl, rfl, rfl⟩
  simp [index_post, hp, hg]

theorem demand_c1_witness :
    prepare_data dsB "A" = [] ∧ get_yearly_demand dsB "A" = none ∧
      index_post fit0 pred0 rH0 rF0 dsB "A" = noDataRender ∧
      (noDataRender : Render Int).error =
        some "No data found for this product or no data between 2015-2024." ∧
      (noDataRender : Render Int).forecast = none ∧
      (noDataRender : Render Int).historical_plot_url = none ∧
      (noDataRender : Render Int).forecast_plot_url = none :=
  demand_c1 fit0 pred0 rH0 rF0 dsB "A" (by decide)

/-- C2: every (year, total) point of the prepared series and of the
historical series has its year in the window [2015, 2024]; records of
years outside the window contribute no point. -/
theorem demand_c2 (ds : List DemandRecord) (code : String) (y : Nat) (v : Int) :
    ((y, v) ∈ prepare_data ds code → 2015 ≤ y ∧ y ≤ 2024) ∧
      (∀ s, get_yearly_demand ds code = some s → (y, v) ∈ s →
        2015 ≤ y ∧ y ≤ 2024) := by
  constructor
  · intro hmem
    rw [prepare_data_eq_filter] at hmem
    simpa using (List.mem_filter.mp hmem).2
  · intro s hs hmem
    by_cases hm : matching ds code = []
    · simp [get_yearly_demand, hm] at hs
    · rw [get_yearly_demand_eq ds code hm] at hs
      obtain rfl := Option.some.inj hs
      simpa using (List.mem_filter.mp hmem).2

theorem demand_c2_witness :
    (2015, (10 : Int)) ∈ prepare_data ds1 "A" ∧ (2015 ≤ 2015 ∧ 2015 ≤ 2024) :=
  ⟨by decide, (demand_c2 ds1 "A" 2015 10).1 (by decide)⟩

/-- C4: `prepare_data` is a total function (it never raises): when every
matching record fails date parsing — and in particular when the product
code is unknown — it returns the empty series, and the handler maps an
empty prepared series to the distinct `no_data` rendering instead of
crashing. -/
theorem demand_c4 {μ π : Type} (fit : List (Nat × Int) → Option μ)
    (pred : μ → Nat → Option (List π)) (rH : HistPlotSpec → List Nat)
    (rF : ForecastPlotSpec π → List Nat) (ds : List DemandRecord)
    (code : String) :
    ((∀ r ∈ ds, r.product_code = code → r.date = none) →
      prepare_data ds code = []) ∧
    (prepare_data ds code = [] →
      index_post fit pred rH rF ds code = noDataRender) := by
  constructor
  · intro h
    rw [prepare_data_eq_filter]
    have hpy : parsedYears (matching ds code) = [] := by
      rw [parsedYears, List.filterMap_eq_nil_iff]
      intro r hr
      have hrm := List.mem_filter.mp hr
      exact h r hrm.1 (by simpa using hrm.2)
    simp [resampleYearlySum, hpy]
  · intro hp
    simp [index_post, hp]

theorem demand_c4_witness :
    prepare_data dsNaT "A" = [] ∧
      index_post fit0 pred0 rH0 rF0 dsNaT "A" = noDataRender := by
  refine ⟨?_, ?_⟩
  · exact (demand_c4 fit0 pred0 rH0 rF0 dsNaT "A").1 (by decide)
  · exact (demand_c4 fit0 pred0 rH0 rF0 dsNaT "A").2 (by decide)

/-- C10: whenever `get_yearly_demand` returns a series, `prepare_data`
returns exactly the same (year, total) pairs in the same order; the two
functions differ only in the representation of the no-data case. -/
theorem demand_c10 (ds : List DemandRecord) (code : String) :
    (∀ s, get_yearly_demand ds code = some s → prepare_data ds code = s) ∧
      (get_yearly_demand ds code = none → prepare_data ds code = []) := by
  constructor
  · intro s hs
    by_cases hm : matching ds code = []
    · simp [get_yearly_demand, hm] at hs
    · rw [get_yearly_demand_eq ds code hm] at hs
      obtain rfl := Option.some.inj hs
      exact prepare_data_eq_filter ds code
  · intro hn
    by_cases hm : matching ds code = []
    · simp [prepare_data, hm]
    · rw [get_yearly_demand_eq ds code hm] at hn
      simp at hn

theorem demand_c10_witness :
    prepare_data ds1 "A" = [(2015, (10 : Int))] :=
  (demand_c10 ds1 "A").1 [(2015, 10)] (by decide)

/-- Fit oracle used in the success-path witnesses: always succeeds. -/
def fitOk : List (Nat × Int) → Option Unit := fun _ => some ()

/-- Forecast oracle used in the success-path witnesses: five values. -/
def predOk : Unit → Nat → Option (List Int) := fun _ _ => some [1, 2, 3, 4, 5]

/-- Fit oracle that fails exactly on series with fewer than 6 points. -/
def fitShort : List (Nat × Int) → Option Unit := fun s =>
  if s.length < 6 then none else some ()

/-- C5: the handler applies its checks in the fixed order no_data, then
training_failed, then forecast_failed, then success; the first failing
check determines the terminal state, and each failure state renders
exactly one user-visible error message with no forecast, no historical
chart and no forecast chart. -/
theorem demand_c5 {μ π : Type} (fit : List (Nat × Int) → Option μ)
    (pred : μ → Nat → Option (List π)) (rH : HistPlotSpec → List Nat)
    (rF : ForecastPlotSpec π → List Nat) (ds : List DemandRecord)
    (code : String) :
    (noDataCheck ds code = true →
      index_post fit pred rH rF ds code = noDataRender) ∧
    (noDataCheck ds code = false → fit (prepare_data ds code) = none →
      index_post fit pred rH rF ds code = trainFailRender) ∧
    (∀ m, noDataCheck ds code = false → fit (prepare_data ds code) = some m →
      pred m 5 = none →
      index_post fit pred rH rF ds code = forecastFailRender) ∧
    (∀ m vals, noDataCheck ds code = false →
      fit (prepare_data ds code) = some m → pred m 5 = some vals →
      (index_post fit pred rH rF ds code).error = none ∧
      (∃ f, (index_post fit pred rH rF ds code).forecast = some f) ∧
      (∃ u, (index_post fit pred rH rF ds code).historical_plot_url = some u) ∧
      (∃ u, (index_post fit pred rH rF ds code).forecast_plot_url = some u)) ∧
    ((noDataRender : Render π).error =
        some "No data found for this product or no data between 2015-2024." ∧
      (noDataRender : Render π).forecast = none ∧
      (noDataRender : Render π).historical_plot_url = none ∧
      (noDataRender : Render π).forecast_plot_url = none) ∧
    ((trainFailRender : Render π).error = some "Failed to train ARIMA model." ∧
      (trainFailRender : Render π).forecast = none ∧
      (trainFailRender : Render π).historical_plot_url = none ∧
      (trainFailRender : Render π).forecast_plot_url = none) ∧
    ((forecastFailRender : Render π).error =
        some "Failed to generate forecast." ∧
      (forecastFailRender : Render π).forecast = none ∧
      (forecastFailRender : Render π).historical_plot_url = none ∧
      (forecastFailRender : Render π).forecast_plot_url = none) := by
  refine ⟨?_, ?_, ?_, ?_, ⟨rfl, rfl, rfl, rfl⟩, ⟨rfl, rfl, rfl, rfl⟩,
    ⟨rfl, rfl, rfl, rfl⟩⟩
  · intro h
    simp only [noDataCheck] at h
    simp [index_post, h]
  · intro h hf
    simp only [noDataCheck] at h
    simp [index_post, h, hf]
  · intro m h hf hp
    simp only [noDataCheck] at h
    simp [index_post, h, hf, hp]
  · intro m vals h hf hp
    simp only [noDataCheck] at h
    simp [index_post, h, hf, hp]

theorem demand_c5_witness :
    index_post fit0 pred0 rH0 rF0 [] "A" = noDataRender :=
  (demand_c5 fit0 pred0 rH0 rF0 [] "A").1 (by decide)

/-- C3: with last observed year `l` and five predicted values, the
forecast mapping has keys exactly l+1 through l+5 paired with the
predicted values in order; the handler displays its restriction to
[2025, 2029], and when `l` is before 2020 the displayed forecast is empty
(fewer than 5 years). -/
theorem demand_c3 {μ π : Type} (fit : List (Nat × Int) → Option μ)
    (pred : μ → Nat → Option (List π)) (rH : HistPlotSpec → List Nat)
    (rF : ForecastPlotSpec π → List Nat) (ds : List DemandRecord)
    (code : String) (m : μ) (v1 v2 v3 v4 v5 : π) (l : Nat)
    (hne : prepare_data ds code ≠ [])
    (hl : l = lastYear (prepare_data ds code))
    (hfit : fit (prepare_data ds code) = some m)
    (hpred : pred m 5 = some [v1, v2, v3, v4, v5]) :
    buildForecast l [v1, v2, v3, v4, v5] =
      [(l+1, v1), (l+2, v2), (l+3, v3), (l+4, v4), (l+5, v5)] ∧
    (buildForecast l [v1, v2, v3, v4, v5]).map Prod.fst =
      [l+1, l+2, l+3, l+4, l+5] ∧
    (index_post fit pred rH rF ds code).forecast =
      some ((buildForecast l [v1, v2, v3, v4, v5]).filter fun p =>
        2025 ≤ p.1 && p.1 ≤ 2029) ∧
    (l < 2020 → (index_post fit pred rH rF ds code).forecast = some []) := by
  subst hl
  have hist := get_eq_prepare_of_ne hne
  have hser : (prepare_data ds code).isEmpty = false := by
    simpa [List.isEmpty_iff] using hne
  have hb : buildForecast (lastYear (prepare_data ds code)) [v1, v2, v3, v4, v5] =
      [(lastYear (prepare_data ds code) + 1, v1),
       (lastYear (prepare_data ds code) + 2, v2),
       (lastYear (prepare_data ds code) + 3, v3),
       (lastYear (prepare_data ds code) + 4, v4),
       (lastYear (prepare_data ds code) + 5, v5)] := rfl
  have hfc : (index_post fit pred rH rF ds code).forecast =
      some ((buildForecast (lastYear (prepare_data ds code))
        [v1, v2, v3, v4, v5]).filter fun p => 2025 ≤ p.1 && p.1 ≤ 2029) := by
    simp [index_post, hist, hser, hfit, hpred, List.isEmpty_iff, hne]
  refine ⟨hb, by rw [hb]; rfl, hfc, ?_⟩
  intro hlt
  rw [hfc, hb]
  have hnil : ([(lastYear (prepare_data ds code) + 1, v1),
      (lastYear (prepare_data ds code) + 2, v2),
      (lastYear (prepare_data ds code) + 3, v3),
      (lastYear (prepare_data ds code) + 4, v4),
      (lastYear (prepare_data ds code) + 5, v5)].filter
        fun p => 2025 ≤ p.1 && p.1 ≤ 2029) = [] := by
    apply List.filter_eq_nil_iff.mpr
    intro a ha
    simp only [List.mem_cons, List.not_mem_nil, or_false] at ha
    rcases ha with rfl | rfl | rfl | rfl | rfl <;> simp <;> omega
  rw [hnil]

theorem demand_c3_witness :
    buildForecast 2021 [(1 : Int), 2, 3, 4, 5] =
      [(2022, 1), (2023, 2), (2024, 3), (2025, 4), (2026, 5)] ∧
    (buildForecast 2021 [(1 : Int), 2, 3, 4, 5]).map Prod.fst =
      [2022, 2023, 2024, 2025, 2026] ∧
    (index_post fitOk predOk rH0 rF0 ds7 "A").forecast =
      some ((buildForecast 2021 [(1 : Int), 2, 3, 4, 5]).filter fun p =>
        2025 ≤ p.1 && p.1 ≤ 2029) ∧
    (2021 < 2020 → (index_post fitOk predOk rH0 rF0 ds7 "A").forecast =
      some []) :=
  demand_c3 fitOk predOk rH0 rF0 ds7 "A" () 1 2 3 4 5 2021 (by decide)
    (by decide) rfl rfl

/-- C7: with a fit oracle that reports failure on any series shorter than
the fixed (5,1,0) order needs (modelled from the spec for the external
statsmodels routine, which is not part of this repository), a non-empty
prepared series with fewer than 6 points drives the handler to the
training_failed state with its single message and no charts, and the
handler does not crash (it is a total function). -/
theorem demand_c7 {μ π : Type} (fit : List (Nat × Int) → Option μ)
    (pred : μ → Nat → Option (List π)) (rH : HistPlotSpec → List Nat)
    (rF : ForecastPlotSpec π → List Nat) (ds : List DemandRecord)
    (code : String)
    (hfit : ∀ s : List (Nat × Int), s.length < 6 → fit s = none)
    (hne : prepare_data ds code ≠ [])
    (hlen : (prepare_data ds code).length < 6) :
    index_post fit pred rH rF ds code = trainFailRender ∧
    (trainFailRender : Render π).error = some "Failed to train ARIMA model." ∧
    (trainFailRender : Render π).forecast = none ∧
    (trainFailRender : Render π).historical_plot_url = none ∧
    (trainFailRender : Render π).forecast_plot_url = none := by
  have hist := get_eq_prepare_of_ne hne
  have hser : (prepare_data ds code).isEmpty = false := by
    simpa [List.isEmpty_iff] using hne
  have hf := hfit _ hlen
  refine ⟨?_, rfl, rfl, rfl, rfl⟩
  simp [index_post, hist, hser, hf, List.isEmpty_iff, hne]

theorem demand_c7_witness :
    prepare_data dsTwo "A" = [(2015, 100), (2016, 120)] ∧
      index_post fitShort pred0 rH0 rF0 dsTwo "A" = trainFailRender :=
  ⟨by decide,
    (demand_c7 fitShort pred0 rH0 rF0 dsTwo "A"
      (fun s hs => by simp [fitShort, hs]) (by decide) (by decide)).1⟩

/-- C6 counterexample: product A has records only in 2015 and 2017, yet
the prepared and historical series both contain the invented point
(2016, 0) for a year in which no record exists. -/
theorem demand_c6_cex :
    (2016, (0 : Int)) ∈ prepare_data dsGap "A" ∧
      (∀ r ∈ dsGap, ¬ r.date = some 2016) ∧
      get_yearly_demand dsGap "A" =
        some [(2015, 10), (2016, 0), (2017, 20)] := by
  decide

/-- C6 amended: the prepared series contains exactly the years of the
window [2015, 2024] lying between the first and last parsed year of the
product's records; a year without records inside that observed span
appears with total 0 (invented by the yearly resampling) rather than
being absent, years outside the observed span are absent, and the
forward-fill step has no effect on any value. -/
theorem demand_c6_amended (ds : List DemandRecord) (code : String) (y : Nat)
    (v : Int) :
    ((y, v) ∈ prepare_data ds code ↔
      (parsedYears (matching ds code) ≠ [] ∧
        minObsYear (matching ds code) ≤ y ∧
        y ≤ maxObsYear (matching ds code) ∧
        2015 ≤ y ∧ y ≤ 2024 ∧ v = yearTotal (matching ds code) y)) ∧
    (∀ s, get_yearly_demand ds code = some s →
      ((y, v) ∈ s ↔ (y, v) ∈ prepare_data ds code)) ∧
    (∀ s : List (Nat × Int), ffillGo none (withNaN s) = withNaN s) := by
  refine ⟨?_, ?_, ffillGo_withNaN none⟩
  · rw [prepare_data_eq_filter, List.mem_filter, mem_resampleYearlySum]
    constructor
    · rintro ⟨⟨h1, h2, h3, h4⟩, hw⟩
      have hw2 : 2015 ≤ y ∧ y ≤ 2024 := by simpa using hw
      exact ⟨h1, h2, h3, hw2.1, hw2.2, h4⟩
    · rintro ⟨h1, h2, h3, h4, h5, h6⟩
      exact ⟨⟨h1, h2, h3, h6⟩, by simp [h4, h5]⟩
  · intro s hs
    by_cases hm : matching ds code = []
    · simp [get_yearly_demand, hm] at hs
    · rw [get_yearly_demand_eq ds code hm] at hs
      obtain rfl := Option.some.inj hs
      rw [prepare_data_eq_filter]

/-- C8: on an empty historical series and an empty forecast mapping the
two plot functions terminate (they are total functions), take the
placeholder branch carrying the no-data message instead of a chart, and
return well-formed base64-encoded output. -/
theorem demand_c8 (π : Type) (rH : HistPlotSpec → List Nat)
    (rF : ForecastPlotSpec π → List Nat) (code : String) :
    histPlotSpec [] code = HistPlotSpec.noData histMsg code ∧
    forecastPlotSpec ([] : List (Nat × π)) code =
      ForecastPlotSpec.noData forecastMsg code ∧
    create_historical_plot rH [] code =
      base64Encode (rH (HistPlotSpec.noData histMsg code)) ∧
    create_forecast_plot rF [] code =
      base64Encode (rF (ForecastPlotSpec.noData forecastMsg code)) ∧
    validBase64 (create_historical_plot rH [] code) ∧
    validBase64 (create_forecast_plot rF [] code) :=
  ⟨rfl, rfl, rfl, rfl, validBase64_base64Encode _, validBase64_base64Encode _⟩

/-- A raw row whose quantity column coerces to the negative integer -5
(the string "-5" is parseable, so the row is retained). -/
def rawNeg : List RawRecord := [RawRecord.mk "A" (some 2015) (some (-5))]

/-- C9 counterexample: the startup load retains a parseable negative
quantity, so the loaded dataset is not all-non-negative. -/
theorem demand_c9_cex : ∃ r ∈ load rawNeg, r.quantity < 0 := by decide

/-- C9 amended: after the startup load each retained record carries
exactly the successfully coerced integer quantity of its raw row (rows
with unparseable quantities are dropped, but the sign is never checked),
and request handling never mutates the dataset: the handler returns the
process-wide state unchanged. -/
theorem demand_c9_amended {μ π : Type} (raws : List RawRecord)
    (fit : List (Nat × Int) → Option μ) (pred : μ → Nat → Option (List π))
    (rH : HistPlotSpec → List Nat) (rF : ForecastPlotSpec π → List Nat)
    (st : List DemandRecord) (code : String) :
    (load raws).map (fun r => r.quantity) =
      raws.filterMap (fun r => r.order_demand_num) ∧
    (index_post_st fit pred rH rF st code).2 = st := by
  constructor
  · have h : ∀ r : RawRecord,
        (r.order_demand_num.map fun q =>
          DemandRecord.mk r.product_code r.date q).map
            (fun d => d.quantity) = r.order_demand_num := by
      intro r
      cases r.order_demand_num <;> rfl
    rw [load, List.map_filterMap]
    simp only [h]
  · rfl

end App
